import Mathlib

/-!
Verification development for the admin-gated, dual-store user-lifecycle
orchestrator in `src/functions/index.js` (Firebase callable and HTTP
endpoints) of the nw-patrol repository.

The two backing stores are modelled as association lists keyed by account
id: `auth` is the identity provider (Firebase Auth) and `firestore` is the
profile store (the `users` collection).  External behaviour the source does
not control — the fresh uid the provider assigns, provider-side password
policy rejections, and transient failures of individual store calls — is
supplied through small environment records, so that every control path of
the source can be exercised.
-/

namespace Patrol

/-- A business-level user profile document in the `users` collection. -/
structure UserProfile where
  email : String
  name : String
  role : String
  title : String
  communities : List String
deriving DecidableEq, Repr

/-- An identity-provider account record (Firebase Auth user). -/
structure IdentityRecord where
  email : String
  password : String
  displayName : String
deriving DecidableEq, Repr

/-- Association-list lookup by key, first match wins. -/
def lookupKey {α : Type} : List (String × α) → String → Option α
  | [], _ => none
  | (k, v) :: rest, k0 => if k = k0 then some v else lookupKey rest k0

/-- Association-list write: replace the first binding of the key, or append. -/
def setKey {α : Type} : List (String × α) → String → α → List (String × α)
  | [], k, v => [(k, v)]
  | (k0, v0) :: rest, k, v =>
    if k0 = k then (k, v) :: rest else (k0, v0) :: setKey rest k v

/-- Association-list delete: removes every binding of the key. -/
def removeKey {α : Type} : List (String × α) → String → List (String × α)
  | [], _ => []
  | (k0, v0) :: rest, k =>
    if k0 = k then removeKey rest k else (k0, v0) :: removeKey rest k

/-- The joint state of the two backing stores. -/
structure Stores where
  auth : List (String × IdentityRecord)
  firestore : List (String × UserProfile)
deriving DecidableEq, Repr

/-- A thrown JavaScript error as the handlers observe it: an optional
string `code` property and a `message`.  `HttpsError`s always carry a
code; raw provider errors carry codes such as `auth/user-not-found`;
Firestore GoogleErrors carry the numeric grpc code (rendered here as the
string "5" for NOT_FOUND), which is distinct from every string the
handlers compare against. -/
structure JsError where
  code : Option String
  message : String
deriving DecidableEq, Repr

instance {ε α : Type} [DecidableEq ε] [DecidableEq α] : DecidableEq (Except ε α) := fun x y =>
  match x, y with
  | .ok a, .ok b =>
    if h : a = b then .isTrue (congrArg Except.ok h)
    else .isFalse fun hc => h (Except.ok.inj hc)
  | .error a, .error b =>
    if h : a = b then .isTrue (congrArg Except.error h)
    else .isFalse fun hc => h (Except.error.inj hc)
  | .ok _, .error _ => .isFalse fun hc => Except.noConfusion hc
  | .error _, .ok _ => .isFalse fun hc => Except.noConfusion hc

/-- The administrator sentinel role value checked by both guards. -/
def adminRole : String := "管理員"

def unauthCallableError : JsError :=
  ⟨some "unauthenticated", "此操作需要權限，請先登入。"⟩

def permDeniedError : JsError :=
  ⟨some "permission-denied", "權限不足，只有管理員可以執行此操作。"⟩

/-- `ensureAdmin` from the source: callable-context guard.  `ctxAuth` is
`context.auth`, i.e. the verified caller uid when the transport attached a
valid credential and `none` otherwise. -/
def ensureAdmin (st : Stores) (ctxAuth : Option String) : Except JsError Unit :=
  match ctxAuth with
  | none => .error unauthCallableError
  | some uid =>
    match lookupKey st.firestore uid with
    | none => .error permDeniedError
    | some doc => if doc.role ≠ adminRole then .error permDeniedError else .ok ()

/-- JavaScript `\s` whitespace (the ASCII part). -/
def isSpaceChar (c : Char) : Bool :=
  c = ' ' ∨ c = '\t' ∨ c = '\n' ∨ c = '\r' ∨ c = '\x0b' ∨ c = '\x0c'

def dropSpaces : List Char → List Char
  | [] => []
  | c :: rest => if isSpaceChar c then dropSpaces rest else c :: rest

/-- Matcher for the regex `^Bearer\s+(.*)$/i`: a case-insensitive
`Bearer`, at least one whitespace character, then the captured token
(the greedy `\s+` consumes all leading whitespace). -/
def bearerToken : List Char → Option (List Char)
  | b :: e1 :: a :: r1 :: e2 :: r2 :: c :: rest =>
    if b.toLower = 'b' ∧ e1.toLower = 'e' ∧ a.toLower = 'a' ∧ r1.toLower = 'r' ∧
        e2.toLower = 'e' ∧ r2.toLower = 'r' ∧ isSpaceChar c then
      some (dropSpaces rest)
    else none
  | _ => none

def parseBearer (header : String) : Option String :=
  (bearerToken header.data).map fun cs => String.mk cs

def hdrUnauthMissing : JsError := ⟨some "unauthenticated", "缺少 Authorization Bearer Token"⟩
def hdrUnauthVerify : JsError := ⟨some "unauthenticated", "Token 驗證失敗"⟩
def hdrPermDenied : JsError := ⟨some "permission-denied", "權限不足，只有管理員可以執行此操作。"⟩

/-- `ensureAdminFromRequest` from the source: HTTP-endpoint guard.
`verify` models `admin.auth().verifyIdToken`, mapping a token to the
caller uid when verification succeeds. -/
def ensureAdminFromRequest (st : Stores) (verify : String → Option String)
    (authHeader : Option String) : Except JsError String :=
  match parseBearer (authHeader.getD "") with
  | none => .error hdrUnauthMissing
  | some idToken =>
    match verify idToken with
    | none => .error hdrUnauthVerify
    | some uid =>
      match lookupKey st.firestore uid with
      | none => .error hdrPermDenied
      | some doc => if doc.role ≠ adminRole then .error hdrPermDenied else .ok uid

/-- JavaScript truthiness of an optional string field: absent and the
empty string are falsy. -/
def truthyStr : Option String → Bool
  | none => false
  | some s => !s.isEmpty

/-- The request payload of `createUser`; every field may be absent. -/
structure CreateData where
  email : Option String
  password : Option String
  name : Option String
  role : Option String
  title : Option String
  communities : Option (List String)
deriving DecidableEq, Repr

/-- External behaviour of one `createUser` run: the uid the identity
provider would assign, an injected provider-side failure code for the
account creation (e.g. `auth/invalid-password` for a weak password) when
the email is free, and whether the follow-up profile write fails. -/
structure CreateEnv where
  freshUid : String
  authCreateError : Option String
  profileSetFails : Bool
deriving DecidableEq, Repr

/-- The identity provider owns email uniqueness. -/
def emailTaken (st : Stores) (email : String) : Bool :=
  st.auth.any fun p => p.2.email = email

/-- `admin.auth().createUser`: fails with `auth/email-already-exists` on a
duplicate email, with the injected provider code otherwise when present,
and else records the new account under the fresh uid. -/
def authCreateUser (env : CreateEnv) (st : Stores) (email password displayName : String) :
    Except JsError (String × Stores) :=
  if emailTaken st email then
    .error ⟨some "auth/email-already-exists", "The email address is already in use by another account."⟩
  else
    match env.authCreateError with
    | some c => .error ⟨some c, "identity provider rejected the request"⟩
    | none =>
      .ok (env.freshUid, { st with auth := setKey st.auth env.freshUid ⟨email, password, displayName⟩ })

/-- `doc(uid).set(doc)`: unconditional document write, with an injected
transient failure. -/
def firestoreSet (fails : Bool) (st : Stores) (uid : String) (doc : UserProfile) :
    Except JsError Stores :=
  if fails then .error ⟨some "unavailable", "firestore write failed"⟩
  else .ok { st with firestore := setKey st.firestore uid doc }

/-- The success payload `{ success: true, uid }` of `createUser`. -/
structure CreateOk where
  success : Bool
  uid : String
deriving DecidableEq, Repr

/-- The catch block of callable `createUser`: only the duplicate-email code
is recognised; every other failure becomes `internal`. -/
def createCatch (e : JsError) : JsError :=
  if e.code = some "auth/email-already-exists" then
    ⟨some "already-exists", "此電子郵件已被註冊。"⟩
  else ⟨some "internal", "建立使用者時發生錯誤。"⟩

def createMissingFields (d : CreateData) : Bool :=
  !truthyStr d.email || !truthyStr d.password || !truthyStr d.name ||
    !truthyStr d.role || !truthyStr d.title

/-- Callable `createUser`: guard, required-field check, identity-provider
account creation, then the profile write; errors of the try block pass
through `createCatch`.  Returns the final store state next to the
outcome (a thrown error never rolls state back). -/
def createUser (env : CreateEnv) (st : Stores) (ctxAuth : Option String) (d : CreateData) :
    Stores × Except JsError CreateOk :=
  match ensureAdmin st ctxAuth with
  | .error e => (st, .error e)
  | .ok () =>
    if createMissingFields d then
      (st, .error ⟨some "invalid-argument", "缺少必要欄位。"⟩)
    else
      match authCreateUser env st (d.email.getD "") (d.password.getD "") (d.name.getD "") with
      | .error e => (st, .error (createCatch e))
      | .ok (uid, st1) =>
        match firestoreSet env.profileSetFails st1 uid
            ⟨d.email.getD "", d.name.getD "", d.role.getD "", d.title.getD "", d.communities.getD []⟩ with
        | .error e => (st1, .error (createCatch e))
        | .ok st2 => (st2, .ok ⟨true, uid⟩)

/-- The request payload of `updateUser`. -/
structure UpdateData where
  uid : Option String
  name : Option String
  role : Option String
  title : Option String
  communities : Option (List String)
  password : Option String
deriving DecidableEq, Repr

/-- External behaviour of one `updateUser` run: whether the provider
rejects the supplied password. -/
structure UpdateEnv where
  passwordWeak : Bool
deriving DecidableEq, Repr

/-- The error a Firestore `update` on a missing document rejects with: a
GoogleError carrying grpc code 5 (NOT_FOUND) — not an `auth/...` code. -/
def firestoreNotFoundError : JsError := ⟨some "5", "5 NOT_FOUND: no entity to update"⟩

/-- `doc(uid).update({name, role, title, communities})`: fails when the
document is absent, otherwise overwrites exactly those four fields. -/
def firestoreUpdate (st : Stores) (uid name role title : String) (communities : List String) :
    Except JsError Stores :=
  match lookupKey st.firestore uid with
  | none => .error firestoreNotFoundError
  | some old =>
    .ok { st with firestore := (setKey st.firestore uid
      { old with name := name, role := role, title := title, communities := communities }) }

/-- `admin.auth().updateUser(uid, {displayName, password?})`. -/
def authUpdateUser (env : UpdateEnv) (st : Stores) (uid displayName : String)
    (password : Option String) : Except JsError Stores :=
  match lookupKey st.auth uid with
  | none => .error ⟨some "auth/user-not-found", "There is no user record corresponding to the provided identifier."⟩
  | some r =>
    if truthyStr password && env.passwordWeak then
      .error ⟨some "auth/invalid-password", "The password must be a string with at least six characters."⟩
    else
      .ok { st with auth := (setKey st.auth uid
        { r with displayName := displayName,
                 password := if truthyStr password then password.getD "" else r.password }) }

/-- The success payload `{ success: true }`. -/
structure OpOk where
  success : Bool
deriving DecidableEq, Repr

/-- The catch block of callable `updateUser`. -/
def updateCatch (e : JsError) : JsError :=
  if e.code = some "auth/user-not-found" then ⟨some "not-found", "找不到該使用者。"⟩
  else if e.code = some "auth/invalid-password" ∨ e.code = some "auth/weak-password" then
    ⟨some "invalid-argument", "密碼格式不符合要求。"⟩
  else ⟨some "internal", if e.message.isEmpty then "更新使用者時發生錯誤。" else e.message⟩

def updateMissingFields (d : UpdateData) : Bool :=
  !truthyStr d.uid || !truthyStr d.name || !truthyStr d.role || !truthyStr d.title

/-- Callable `updateUser`: guard, required-field check, profile-store
update first, then the identity-provider update. -/
def updateUser (env : UpdateEnv) (st : Stores) (ctxAuth : Option String) (d : UpdateData) :
    Stores × Except JsError OpOk :=
  match ensureAdmin st ctxAuth with
  | .error e => (st, .error e)
  | .ok () =>
    if updateMissingFields d then
      (st, .error ⟨some "invalid-argument", "缺少必要欄位 (uid, name, role, title)。"⟩)
    else
      match firestoreUpdate st (d.uid.getD "") (d.name.getD "") (d.role.getD "")
          (d.title.getD "") (d.communities.getD []) with
      | .error e => (st, .error (updateCatch e))
      | .ok st1 =>
        match authUpdateUser env st1 (d.uid.getD "") (d.name.getD "") d.password with
        | .error e => (st1, .error (updateCatch e))
        | .ok st2 => (st2, .ok ⟨true⟩)

/-- The request payload of `deleteUser`. -/
structure DeleteData where
  uid : Option String
deriving DecidableEq, Repr

/-- External behaviour of one `deleteUser` run: injected transient
failures of the identity-provider delete and of the profile delete. -/
structure DeleteEnv where
  authDeleteFails : Bool
  profileDeleteFails : Bool
deriving DecidableEq, Repr

/-- `admin.auth().deleteUser(uid)`: fails with `auth/user-not-found` when
the account was never present, or with a transient provider failure;
otherwise removes the identity record. -/
def authDeleteUser (fails : Bool) (st : Stores) (uid : String) : Except JsError Stores :=
  match lookupKey st.auth uid with
  | none => .error ⟨some "auth/user-not-found", "There is no user record corresponding to the provided identifier."⟩
  | some _ =>
    if fails then .error ⟨some "unavailable", "identity provider call failed"⟩
    else .ok { st with auth := removeKey st.auth uid }

/-- `doc(uid).delete()`: idempotent document delete, with an injected
transient failure. -/
def firestoreDelete (fails : Bool) (st : Stores) (uid : String) : Except JsError Stores :=
  if fails then .error ⟨some "unavailable", "firestore delete failed"⟩
  else .ok { st with firestore := removeKey st.firestore uid }

/-- Callable `deleteUser`: guard, required-field check, identity-provider
delete first, then the profile delete; its catch block maps every failure
to `internal`. -/
def deleteUser (env : DeleteEnv) (st : Stores) (ctxAuth : Option String) (d : DeleteData) :
    Stores × Except JsError OpOk :=
  match ensureAdmin st ctxAuth with
  | .error e => (st, .error e)
  | .ok () =>
    if !truthyStr d.uid then
      (st, .error ⟨some "invalid-argument", "缺少使用者 UID。"⟩)
    else
      match authDeleteUser env.authDeleteFails st (d.uid.getD "") with
      | .error _ => (st, .error ⟨some "internal", "刪除使用者時發生錯誤。"⟩)
      | .ok st1 =>
        match firestoreDelete env.profileDeleteFails st1 (d.uid.getD "") with
        | .error _ => (st1, .error ⟨some "internal", "刪除使用者時發生錯誤。"⟩)
        | .ok st2 => (st2, .ok ⟨true⟩)

/-- The `statusMap` table of `sendError`. -/
def statusMap (code : String) : Option Nat :=
  if code = "unauthenticated" then some 401
  else if code = "permission-denied" then some 403
  else if code = "invalid-argument" then some 400
  else if code = "already-exists" then some 409
  else if code = "not-found" then some 404
  else if code = "internal" then some 500
  else none

/-- An HTTP error response: status line plus the `{error: {code, message}}`
body. -/
structure ErrorResponse where
  status : Nat
  code : String
  message : String
deriving DecidableEq, Repr

/-- `sendError` from the source: `const code = error.code || "internal"`
defaults every falsy code — an absent property and the empty string
alike — to `internal`, maps the code through `statusMap` with fallback
500, and otherwise keeps the original code string in the body. -/
def sendError (e : JsError) : ErrorResponse :=
  let code := match e.code with
    | some s => if s.isEmpty then "internal" else s
    | none => "internal"
  ⟨(statusMap code).getD 500, code, if e.message.isEmpty then "發生錯誤" else e.message⟩

/-- The observable reply of an HTTP endpoint. -/
inductive HttpResult where
  | sent (status : Nat) (body : String)
  | errJson (status : Nat) (code : Option String) (message : String)
  | okJson (uid : Option String)
deriving DecidableEq, Repr

def sendErrorR (e : JsError) : HttpResult :=
  .errJson (sendError e).status (some (sendError e).code) (sendError e).message

/-- An inbound HTTP request: method, authorization header, and the
`req.body.data` payload when present. -/
structure HttpRequest (β : Type) where
  method : String
  authHeader : Option String
  data : Option β
deriving DecidableEq, Repr

def emptyCreateData : CreateData := ⟨none, none, none, none, none, none⟩
def emptyUpdateData : UpdateData := ⟨none, none, none, none, none, none⟩
def emptyDeleteData : DeleteData := ⟨none⟩

/-- The catch block of `httpCreateUser` re-wraps a duplicate-email error
before handing the error to `sendError`. -/
def httpCreateRemap (e : JsError) : JsError :=
  if e.code = some "auth/email-already-exists" then
    ⟨some "already-exists", "此電子郵件已被註冊。"⟩
  else e

/-- `httpCreateUser`: CORS preflight and method check first, then the
header guard and the same two-store sequence as the callable version. -/
def httpCreateUser (env : CreateEnv) (verify : String → Option String) (st : Stores)
    (req : HttpRequest CreateData) : Stores × HttpResult :=
  if req.method = "OPTIONS" then (st, .sent 204 "")
  else if req.method ≠ "POST" then (st, .errJson 405 none "Method Not Allowed")
  else
    let d := req.data.getD emptyCreateData
    match ensureAdminFromRequest st verify req.authHeader with
    | .error e => (st, sendErrorR (httpCreateRemap e))
    | .ok _ =>
      if createMissingFields d then
        (st, sendErrorR (httpCreateRemap ⟨some "invalid-argument", "缺少必要欄位。"⟩))
      else
        match authCreateUser env st (d.email.getD "") (d.password.getD "") (d.name.getD "") with
        | .error e => (st, sendErrorR (httpCreateRemap e))
        | .ok (uid, st1) =>
          match firestoreSet env.profileSetFails st1 uid
              ⟨d.email.getD "", d.name.getD "", d.role.getD "", d.title.getD "", d.communities.getD []⟩ with
          | .error e => (st1, sendErrorR (httpCreateRemap e))
          | .ok st2 => (st2, .okJson (some uid))

/-- The catch block of `httpUpdateUser` re-wraps the two recognised
provider errors before handing the error to `sendError`. -/
def httpUpdateRemap (e : JsError) : JsError :=
  if e.code = some "auth/user-not-found" then ⟨some "not-found", "找不到該使用者。"⟩
  else if e.code = some "auth/invalid-password" ∨ e.code = some "auth/weak-password" then
    ⟨some "invalid-argument", "密碼格式不符合要求。"⟩
  else e

/-- `httpUpdateUser`. -/
def httpUpdateUser (env : UpdateEnv) (verify : String → Option String) (st : Stores)
    (req : HttpRequest UpdateData) : Stores × HttpResult :=
  if req.method = "OPTIONS" then (st, .sent 204 "")
  else if req.method ≠ "POST" then (st, .errJson 405 none "Method Not Allowed")
  else
    let d := req.data.getD emptyUpdateData
    match ensureAdminFromRequest st verify req.authHeader with
    | .error e => (st, sendErrorR (httpUpdateRemap e))
    | .ok _ =>
      if updateMissingFields d then
        (st, sendErrorR (httpUpdateRemap ⟨some "invalid-argument", "缺少必要欄位 (uid, name, role, title)。"⟩))
      else
        match firestoreUpdate st (d.uid.getD "") (d.name.getD "") (d.role.getD "")
            (d.title.getD "") (d.communities.getD []) with
        | .error e => (st, sendErrorR (httpUpdateRemap e))
        | .ok st1 =>
          match authUpdateUser env st1 (d.uid.getD "") (d.name.getD "") d.password with
          | .error e => (st1, sendErrorR (httpUpdateRemap e))
          | .ok st2 => (st2, .okJson none)

/-- `httpDeleteUser`: no error re-wrapping before `sendError`. -/
def httpDeleteUser (env : DeleteEnv) (verify : String → Option String) (st : Stores)
    (req : HttpRequest DeleteData) : Stores × HttpResult :=
  if req.method = "OPTIONS" then (st, .sent 204 "")
  else if req.method ≠ "POST" then (st, .errJson 405 none "Method Not Allowed")
  else
    let d := req.data.getD emptyDeleteData
    match ensureAdminFromRequest st verify req.authHeader with
    | .error e => (st, sendErrorR e)
    | .ok _ =>
      if !truthyStr d.uid then
        (st, sendErrorR ⟨some "invalid-argument", "缺少使用者 UID。"⟩)
      else
        match authDeleteUser env.authDeleteFails st (d.uid.getD "") with
        | .error e => (st, sendErrorR e)
        | .ok st1 =>
          match firestoreDelete env.profileDeleteFails st1 (d.uid.getD "") with
          | .error e => (st1, sendErrorR e)
          | .ok st2 => (st2, .okJson none)

/-- The `code` property of a failed run's error (`none` on success). -/
def errCodeOf {α : Type} : Except JsError α → Option String
  | .error e => e.code
  | .ok _ => none

/-! Concrete fixtures used to instantiate the theorems: a store holding one
administrator profile `a1`, one ordinary member `u0` present in both
stores, and request payloads. -/

def exAdmin : UserProfile := ⟨"a@x", "Admin", "管理員", "boss", []⟩
def exMember : UserProfile := ⟨"u0@x", "U0", "member", "staff", ["c1"]⟩
def exSt : Stores := ⟨[("u0", ⟨"u0@x", "pw0", "U0"⟩)], [("a1", exAdmin), ("u0", exMember)]⟩
def exCD : CreateData := ⟨some "e@x", some "secret", some "Nina", some "member", some "staff", none⟩
def exUD : UpdateData := ⟨some "ghost", some "N", some "R", some "T", none, none⟩

/-! Helper lemmas about the association-list stores and the guards. -/

theorem lookupKey_setKey_self {α : Type} (l : List (String × α)) (k : String) (v : α) :
    lookupKey (setKey l k v) k = some v := by
  induction l with
  | nil => simp [setKey, lookupKey]
  | cons hd tl ih =>
    obtain ⟨k0, v0⟩ := hd
    by_cases h : k0 = k
    · simp [setKey, h, lookupKey]
    · simp [setKey, h, lookupKey, ih]

theorem setKey_length_of_fresh {α : Type} (l : List (String × α)) (k : String) (v : α)
    (h : lookupKey l k = none) : (setKey l k v).length = l.length + 1 := by
  induction l with
  | nil => simp [setKey]
  | cons hd tl ih =>
    obtain ⟨k0, v0⟩ := hd
    by_cases hk : k0 = k
    · simp [lookupKey, hk] at h
    · simp only [setKey, if_neg hk, List.length_cons]
      exact congrArg (· + 1) (ih (by simpa [lookupKey, hk] using h))

theorem ensureAdmin_none (st : Stores) : ensureAdmin st none = .error unauthCallableError := rfl

theorem ensureAdmin_ok (st : Stores) (a : String) (prof : UserProfile)
    (h1 : lookupKey st.firestore a = some prof) (h2 : prof.role = adminRole) :
    ensureAdmin st (some a) = .ok () := by
  simp [ensureAdmin, h1, h2]

theorem ensureAdmin_no_profile (st : Stores) (a : String)
    (h1 : lookupKey st.firestore a = none) :
    ensureAdmin st (some a) = .error permDeniedError := by
  simp [ensureAdmin, h1]

theorem ensureAdmin_bad_role (st : Stores) (a : String) (prof : UserProfile)
    (h1 : lookupKey st.firestore a = some prof) (h2 : prof.role ≠ adminRole) :
    ensureAdmin st (some a) = .error permDeniedError := by
  simp [ensureAdmin, h1, h2]

theorem createMissingFields_false (d : CreateData) (e p n r t : String)
    (he : d.email = some e) (hp : d.password = some p) (hn : d.name = some n)
    (hr : d.role = some r) (ht : d.title = some t)
    (hne : e.isEmpty = false) (hnp : p.isEmpty = false) (hnn : n.isEmpty = false)
    (hnr : r.isEmpty = false) (hnt : t.isEmpty = false) :
    createMissingFields d = false := by
  simp [createMissingFields, truthyStr, he, hp, hn, hr, ht, hne, hnp, hnn, hnr, hnt]

theorem updateMissingFields_false (d : UpdateData) (u n r t : String)
    (hu : d.uid = some u) (hn : d.name = some n) (hr : d.role = some r) (ht : d.title = some t)
    (hnu : u.isEmpty = false) (hnn : n.isEmpty = false)
    (hnr : r.isEmpty = false) (hnt : t.isEmpty = false) :
    updateMissingFields d = false := by
  simp [updateMissingFields, truthyStr, hu, hn, hr, ht, hnu, hnn, hnr, hnt]

/-- C8: the transport-facing error translation maps each taxonomy code to
exactly the status of the table in §6 — unauthenticated 401,
permission-denied 403, invalid-argument 400, already-exists 409,
not-found 404, internal 500 — and the response body carries the code and
message. -/
theorem sendError_status_table (msg : String) (hm : msg.isEmpty = false) :
    sendError ⟨some "unauthenticated", msg⟩ = ⟨401, "unauthenticated", msg⟩
    ∧ sendError ⟨some "permission-denied", msg⟩ = ⟨403, "permission-denied", msg⟩
    ∧ sendError ⟨some "invalid-argument", msg⟩ = ⟨400, "invalid-argument", msg⟩
    ∧ sendError ⟨some "already-exists", msg⟩ = ⟨409, "already-exists", msg⟩
    ∧ sendError ⟨some "not-found", msg⟩ = ⟨404, "not-found", msg⟩
    ∧ sendError ⟨some "internal", msg⟩ = ⟨500, "internal", msg⟩ := by
  have hm2 : ¬(msg = "") := fun h => by subst h; exact absurd hm (by decide)
  simp [sendError, statusMap, hm, hm2, String.isEmpty_iff]

/-- C8 witness: the table theorem applied at the message "boom". -/
theorem sendError_status_table_witness :
    "boom".isEmpty = false
    ∧ sendError ⟨some "unauthenticated", "boom"⟩ = ⟨401, "unauthenticated", "boom"⟩
    ∧ sendError ⟨some "not-found", "boom"⟩ = ⟨404, "not-found", "boom"⟩ :=
  ⟨by decide, (sendError_status_table "boom" (by decide)).1,
    (sendError_status_table "boom" (by decide)).2.2.2.2.1⟩

/-- C10 counterexample: the empty-string code is outside the six-value
taxonomy, yet the response body does not retain it: `error.code ||
"internal"` treats the falsy empty string like an absent code, so the
body code at `""` is `internal`, not the original string. -/
theorem sendError_empty_code_cex :
    sendError ⟨some "", "x"⟩ = ⟨500, "internal", "x"⟩
    ∧ (sendError ⟨some "", "x"⟩).code ≠ ""
    ∧ statusMap "" = none := by
  decide

/-- C10 (amended): an error reaching `sendError` whose `code` property is
absent — or the empty string, equally falsy under `||` — defaults to code
`internal` with status 500; for every error whose code is a non-empty
string outside the six-value taxonomy, the status is 500 while the body
keeps the original code string. -/
theorem sendError_falsy_default_and_unknown (msg c : String)
    (hm : msg.isEmpty = false) (hcn : c.isEmpty = false) (hc : statusMap c = none) :
    sendError ⟨none, msg⟩ = ⟨500, "internal", msg⟩
    ∧ sendError ⟨some "", msg⟩ = ⟨500, "internal", msg⟩
    ∧ sendError ⟨some c, msg⟩ = ⟨500, c, msg⟩ := by
  have hm2 : ¬(msg = "") := fun h => by subst h; exact absurd hm (by decide)
  have hcn2 : ¬(c = "") := fun h => by subst h; exact absurd hcn (by decide)
  refine ⟨?_, ?_, ?_⟩
  · simp [sendError, statusMap, hm, hm2, String.isEmpty_iff]
  · simp [sendError, statusMap, hm, hm2, String.isEmpty_iff]
  · simp [sendError, hm, hm2, hcn, hcn2, hc, String.isEmpty_iff]

/-- C10 (amended) witness: applied at the raw provider code
`auth/user-not-found`, which is non-empty and outside the taxonomy. -/
theorem sendError_falsy_default_and_unknown_witness :
    statusMap "auth/user-not-found" = none
    ∧ sendError ⟨none, "boom2"⟩ = ⟨500, "internal", "boom2"⟩
    ∧ sendError ⟨some "", "boom2"⟩ = ⟨500, "internal", "boom2"⟩
    ∧ sendError ⟨some "auth/user-not-found", "boom2"⟩ = ⟨500, "auth/user-not-found", "boom2"⟩ :=
  ⟨by decide,
    (sendError_falsy_default_and_unknown "boom2" "auth/user-not-found"
      (by decide) (by decide) (by decide)).1,
    (sendError_falsy_default_and_unknown "boom2" "auth/user-not-found"
      (by decide) (by decide) (by decide)).2.1,
    (sendError_falsy_default_and_unknown "boom2" "auth/user-not-found"
      (by decide) (by decide) (by decide)).2.2⟩

/-- C9: every HTTP endpoint answers a request whose method is neither
OPTIONS nor POST with status 405 — independently of credential, payload
and store state, which is left untouched — and answers OPTIONS with
status 204 and an empty body. -/
theorem http_method_gate (envC : CreateEnv) (envU : UpdateEnv) (envD : DeleteEnv)
    (verify : String → Option String) (st : Stores) (m : String)
    (hm1 : m ≠ "OPTIONS") (hm2 : m ≠ "POST") (hdr : Option String)
    (cd : Option CreateData) (ud : Option UpdateData) (dd : Option DeleteData) :
    httpCreateUser envC verify st ⟨m, hdr, cd⟩ = (st, .errJson 405 none "Method Not Allowed")
    ∧ httpUpdateUser envU verify st ⟨m, hdr, ud⟩ = (st, .errJson 405 none "Method Not Allowed")
    ∧ httpDeleteUser envD verify st ⟨m, hdr, dd⟩ = (st, .errJson 405 none "Method Not Allowed")
    ∧ httpCreateUser envC verify st ⟨"OPTIONS", hdr, cd⟩ = (st, .sent 204 "")
    ∧ httpUpdateUser envU verify st ⟨"OPTIONS", hdr, ud⟩ = (st, .sent 204 "")
    ∧ httpDeleteUser envD verify st ⟨"OPTIONS", hdr, dd⟩ = (st, .sent 204 "") := by
  simp [httpCreateUser, httpUpdateUser, httpDeleteUser, hm1, hm2]

/-- C9 witness: the method gate applied to a GET request against the
concrete store. -/
theorem http_method_gate_witness :
    httpCreateUser ⟨"u1", none, false⟩ (fun _ => none) exSt ⟨"GET", none, none⟩
      = (exSt, .errJson 405 none "Method Not Allowed")
    ∧ httpDeleteUser ⟨false, false⟩ (fun _ => none) exSt ⟨"OPTIONS", none, none⟩
      = (exSt, .sent 204 "") :=
  ⟨(http_method_gate ⟨"u1", none, false⟩ ⟨false⟩ ⟨false, false⟩ (fun _ => none) exSt "GET"
      (by decide) (by decide) none none none none).1,
    (http_method_gate ⟨"u1", none, false⟩ ⟨false⟩ ⟨false, false⟩ (fun _ => none) exSt "GET"
      (by decide) (by decide) none none none none).2.2.2.2.2⟩

/-- C1: when the identity-provider account creation succeeds but the
profile-store write fails, `createUser` performs no compensating delete —
the new IdentityRecord is still in the identity store, the profile store
is exactly as before (so the record has no matching UserProfile), and the
operation reports the error code `internal`. -/
theorem create_profile_write_failure_orphan
    (env : CreateEnv) (st : Stores) (a : String) (aprof : UserProfile) (d : CreateData)
    (e p n r t : String)
    (hadmin : lookupKey st.firestore a = some aprof)
    (hrole : aprof.role = adminRole)
    (he : d.email = some e) (hp : d.password = some p) (hn : d.name = some n)
    (hr : d.role = some r) (ht : d.title = some t)
    (hne : e.isEmpty = false) (hnp : p.isEmpty = false) (hnn : n.isEmpty = false)
    (hnr : r.isEmpty = false) (hnt : t.isEmpty = false)
    (hfree : emailTaken st e = false)
    (hprov : env.authCreateError = none)
    (hfail : env.profileSetFails = true)
    (horphan : lookupKey st.firestore env.freshUid = none) :
    createUser env st (some a) d =
      ({ auth := setKey st.auth env.freshUid ⟨e, p, n⟩, firestore := st.firestore },
        .error ⟨some "internal", "建立使用者時發生錯誤。"⟩)
    ∧ lookupKey (setKey st.auth env.freshUid ⟨e, p, n⟩) env.freshUid = some ⟨e, p, n⟩
    ∧ lookupKey st.firestore env.freshUid = none := by
  have hg := ensureAdmin_ok st a aprof hadmin hrole
  have hf := createMissingFields_false d e p n r t he hp hn hr ht hne hnp hnn hnr hnt
  refine ⟨?_, lookupKey_setKey_self st.auth env.freshUid ⟨e, p, n⟩, horphan⟩
  simp [createUser, hg, hf, authCreateUser, hfree, hprov, he, hp, hn,
    firestoreSet, hfail, createCatch]

/-- C1 witness: the orphan theorem applied to the concrete store with
administrator `a1`, fresh uid `u1`, and an injected profile-write
failure. -/
theorem create_profile_write_failure_orphan_witness :
    createUser ⟨"u1", none, true⟩ exSt (some "a1") exCD =
      ({ auth := setKey exSt.auth "u1" ⟨"e@x", "secret", "Nina"⟩, firestore := exSt.firestore },
        .error ⟨some "internal", "建立使用者時發生錯誤。"⟩)
    ∧ lookupKey (setKey exSt.auth "u1" ⟨"e@x", "secret", "Nina"⟩) "u1" = some ⟨"e@x", "secret", "Nina"⟩
    ∧ lookupKey exSt.firestore "u1" = none :=
  create_profile_write_failure_orphan ⟨"u1", none, true⟩ exSt "a1" exAdmin exCD
    "e@x" "secret" "Nina" "member" "staff" (by decide) (by decide) (by decide) (by decide)
    (by decide) (by decide) (by decide) (by decide) (by decide) (by decide) (by decide)
    (by decide) (by decide) (by decide) (by decide) (by decide)

/-- C3: `createUser` with valid, previously-unused inputs writes exactly
one new IdentityRecord and one new UserProfile under the same fresh id,
the UserProfile's email, name, role, title and communities equal the
submitted values (communities defaulting to the empty list when omitted),
and the call returns `{success: true, uid}` with that id. -/
theorem create_success_pairs_stores
    (env : CreateEnv) (st : Stores) (a : String) (aprof : UserProfile) (d : CreateData)
    (e p n r t : String)
    (hadmin : lookupKey st.firestore a = some aprof)
    (hrole : aprof.role = adminRole)
    (he : d.email = some e) (hp : d.password = some p) (hn : d.name = some n)
    (hr : d.role = some r) (ht : d.title = some t)
    (hne : e.isEmpty = false) (hnp : p.isEmpty = false) (hnn : n.isEmpty = false)
    (hnr : r.isEmpty = false) (hnt : t.isEmpty = false)
    (hfree : emailTaken st e = false)
    (hprov : env.authCreateError = none)
    (hok : env.profileSetFails = false)
    (hfreshA : lookupKey st.auth env.freshUid = none)
    (hfreshF : lookupKey st.firestore env.freshUid = none) :
    createUser env st (some a) d =
      ({ auth := setKey st.auth env.freshUid ⟨e, p, n⟩,
         firestore := setKey st.firestore env.freshUid ⟨e, n, r, t, d.communities.getD []⟩ },
        .ok ⟨true, env.freshUid⟩)
    ∧ lookupKey (setKey st.auth env.freshUid ⟨e, p, n⟩) env.freshUid = some ⟨e, p, n⟩
    ∧ lookupKey (setKey st.firestore env.freshUid ⟨e, n, r, t, d.communities.getD []⟩)
        env.freshUid = some ⟨e, n, r, t, d.communities.getD []⟩
    ∧ (setKey st.auth env.freshUid ⟨e, p, n⟩).length = st.auth.length + 1
    ∧ (setKey st.firestore env.freshUid ⟨e, n, r, t, d.communities.getD []⟩).length
        = st.firestore.length + 1 := by
  have hg := ensureAdmin_ok st a aprof hadmin hrole
  have hf := createMissingFields_false d e p n r t he hp hn hr ht hne hnp hnn hnr hnt
  refine ⟨?_, lookupKey_setKey_self st.auth env.freshUid ⟨e, p, n⟩,
    lookupKey_setKey_self st.firestore env.freshUid ⟨e, n, r, t, d.communities.getD []⟩,
    setKey_length_of_fresh st.auth env.freshUid ⟨e, p, n⟩ hfreshA,
    setKey_length_of_fresh st.firestore env.freshUid ⟨e, n, r, t, d.communities.getD []⟩ hfreshF⟩
  simp [createUser, hg, hf, authCreateUser, hfree, hprov, he, hp, hn, hr, ht,
    firestoreSet, hok]

/-- C3 witness: a successful creation against the concrete store, with
`communities` omitted and therefore stored as the empty list. -/
theorem create_success_pairs_stores_witness :
    createUser ⟨"u1", none, false⟩ exSt (some "a1") exCD =
      ({ auth := setKey exSt.auth "u1" ⟨"e@x", "secret", "Nina"⟩,
         firestore := setKey exSt.firestore "u1" ⟨"e@x", "Nina", "member", "staff", []⟩ },
        .ok ⟨true, "u1"⟩)
    ∧ lookupKey (setKey exSt.auth "u1" ⟨"e@x", "secret", "Nina"⟩) "u1" = some ⟨"e@x", "secret", "Nina"⟩
    ∧ lookupKey (setKey exSt.firestore "u1" ⟨"e@x", "Nina", "member", "staff", []⟩) "u1"
        = some ⟨"e@x", "Nina", "member", "staff", []⟩
    ∧ (setKey exSt.auth "u1" ⟨"e@x", "secret", "Nina"⟩).length = exSt.auth.length + 1
    ∧ (setKey exSt.firestore "u1" ⟨"e@x", "Nina", "member", "staff", []⟩).length
        = exSt.firestore.length + 1 :=
  create_success_pairs_stores ⟨"u1", none, false⟩ exSt "a1" exAdmin exCD
    "e@x" "secret" "Nina" "member" "staff" (by decide) (by decide) (by decide) (by decide)
    (by decide) (by decide) (by decide) (by decide) (by decide) (by decide) (by decide)
    (by decide) (by decide) (by decide) (by decide) (by decide) (by decide)

/-- C4 counterexample: with valid fields, a free email, and the identity
provider rejecting the weak password (`auth/invalid-password`), the
source's `createUser` reports `internal` — not `invalid-argument` as the
claim states. -/
theorem create_weak_password_internal_cex :
    errCodeOf (createUser ⟨"u1", some "auth/invalid-password", false⟩ exSt (some "a1") exCD).2
      = some "internal"
    ∧ errCodeOf (createUser ⟨"u1", some "auth/invalid-password", false⟩ exSt (some "a1") exCD).2
      ≠ some "invalid-argument" := by
  decide

/-- C4 (amended): when the identity-provider account creation fails,
`createUser` returns `already-exists` for a duplicate email and leaves
both stores unchanged; every other provider-side creation failure —
including a rejected weak password — is reported as `internal` (also with
no store changes). -/
theorem create_identity_failure_codes
    (envA : CreateEnv) (stA : Stores) (aA : String) (profA : UserProfile) (dA : CreateData)
    (eA pA nA rA tA : String)
    (envB : CreateEnv) (stB : Stores) (aB : String) (profB : UserProfile) (dB : CreateData)
    (eB pB nB rB tB c : String)
    (hadminA : lookupKey stA.firestore aA = some profA) (hroleA : profA.role = adminRole)
    (heA : dA.email = some eA) (hpA : dA.password = some pA) (hnA : dA.name = some nA)
    (hrA : dA.role = some rA) (htA : dA.title = some tA)
    (hneA : eA.isEmpty = false) (hnpA : pA.isEmpty = false) (hnnA : nA.isEmpty = false)
    (hnrA : rA.isEmpty = false) (hntA : tA.isEmpty = false)
    (hdupA : emailTaken stA eA = true)
    (hadminB : lookupKey stB.firestore aB = some profB) (hroleB : profB.role = adminRole)
    (heB : dB.email = some eB) (hpB : dB.password = some pB) (hnB : dB.name = some nB)
    (hrB : dB.role = some rB) (htB : dB.title = some tB)
    (hneB : eB.isEmpty = false) (hnpB : pB.isEmpty = false) (hnnB : nB.isEmpty = false)
    (hnrB : rB.isEmpty = false) (hntB : tB.isEmpty = false)
    (hfreeB : emailTaken stB eB = false)
    (hprovB : envB.authCreateError = some c)
    (hcB : c ≠ "auth/email-already-exists") :
    createUser envA stA (some aA) dA = (stA, .error ⟨some "already-exists", "此電子郵件已被註冊。"⟩)
    ∧ createUser envB stB (some aB) dB = (stB, .error ⟨some "internal", "建立使用者時發生錯誤。"⟩) := by
  have hgA := ensureAdmin_ok stA aA profA hadminA hroleA
  have hfA := createMissingFields_false dA eA pA nA rA tA heA hpA hnA hrA htA hneA hnpA hnnA hnrA hntA
  have hgB := ensureAdmin_ok stB aB profB hadminB hroleB
  have hfB := createMissingFields_false dB eB pB nB rB tB heB hpB hnB hrB htB hneB hnpB hnnB hnrB hntB
  constructor
  · simp [createUser, hgA, hfA, authCreateUser, heA, hdupA, createCatch]
  · simp [createUser, hgB, hfB, authCreateUser, heB, hfreeB, hprovB, createCatch, hcB]

/-- C4 (amended) witness: duplicate email `u0@x` gives `already-exists`,
and an injected `auth/invalid-password` failure gives `internal`, both on
the concrete store. -/
theorem create_identity_failure_codes_witness :
    createUser ⟨"u1", none, false⟩ exSt (some "a1") { exCD with email := some "u0@x" }
      = (exSt, .error ⟨some "already-exists", "此電子郵件已被註冊。"⟩)
    ∧ createUser ⟨"u1", some "auth/invalid-password", false⟩ exSt (some "a1") exCD
      = (exSt, .error ⟨some "internal", "建立使用者時發生錯誤。"⟩) :=
  create_identity_failure_codes ⟨"u1", none, false⟩ exSt "a1" exAdmin
    { exCD with email := some "u0@x" } "u0@x" "secret" "Nina" "member" "staff"
    ⟨"u1", some "auth/invalid-password", false⟩ exSt "a1" exAdmin exCD
    "e@x" "secret" "Nina" "member" "staff" "auth/invalid-password"
    (by decide) (by decide) (by decide) (by decide) (by decide) (by decide) (by decide)
    (by decide) (by decide) (by decide) (by decide) (by decide) (by decide)
    (by decide) (by decide) (by decide) (by decide) (by decide) (by decide) (by decide)
    (by decide) (by decide) (by decide) (by decide) (by decide) (by decide) (by decide)
    (by decide)

/-- C5 counterexample: with administrator `a1` and the id `ghost` absent
from both stores, `updateUser` performs no writes but reports `internal`,
not `not-found` — the Firestore missing-document error (grpc code 5) is
not one of the `auth/...` codes the catch block recognises. -/
theorem update_nonexistent_id_internal_cex :
    (updateUser ⟨false⟩ exSt (some "a1") exUD).1 = exSt
    ∧ errCodeOf (updateUser ⟨false⟩ exSt (some "a1") exUD).2 = some "internal"
    ∧ errCodeOf (updateUser ⟨false⟩ exSt (some "a1") exUD).2 ≠ some "not-found" := by
  decide

/-- C5 (amended): `updateUser` on a target id absent from the profile
store performs no writes to either store, but reports `internal` rather
than `not-found`: the catch block only maps the identity provider's
`auth/user-not-found` to `not-found`, and the failing first step throws a
Firestore error instead. -/
theorem update_missing_profile_is_internal
    (env : UpdateEnv) (st : Stores) (a : String) (aprof : UserProfile) (d : UpdateData)
    (uid n r t : String)
    (hadmin : lookupKey st.firestore a = some aprof)
    (hrole : aprof.role = adminRole)
    (hu : d.uid = some uid) (hn : d.name = some n) (hr : d.role = some r) (ht : d.title = some t)
    (hnu : uid.isEmpty = false) (hnn : n.isEmpty = false)
    (hnr : r.isEmpty = false) (hnt : t.isEmpty = false)
    (hmiss : lookupKey st.firestore uid = none) :
    (updateUser env st (some a) d).1 = st
    ∧ errCodeOf (updateUser env st (some a) d).2 = some "internal" := by
  have hg := ensureAdmin_ok st a aprof hadmin hrole
  have hf := updateMissingFields_false d uid n r t hu hn hr ht hnu hnn hnr hnt
  constructor
  · simp [updateUser, hg, hf, firestoreUpdate, hu, hmiss]
  · simp [updateUser, hg, hf, firestoreUpdate, hu, hmiss, updateCatch,
      firestoreNotFoundError, errCodeOf]

/-- C5 (amended) witness: applied to the concrete store and the absent
id `ghost`. -/
theorem update_missing_profile_is_internal_witness :
    (updateUser ⟨false⟩ exSt (some "a1") exUD).1 = exSt
    ∧ errCodeOf (updateUser ⟨false⟩ exSt (some "a1") exUD).2 = some "internal" :=
  update_missing_profile_is_internal ⟨false⟩ exSt "a1" exAdmin exUD "ghost" "N" "R" "T"
    (by decide) (by decide) (by decide) (by decide) (by decide) (by decide)
    (by decide) (by decide) (by decide) (by decide) (by decide)

/-- C6: a successful `updateUser` whose request omits `communities`
overwrites the stored communities of the target profile with the empty
list, whatever they were before (the prior profile `old` is arbitrary);
absence is an overwrite, not "leave unchanged". -/
theorem update_omitted_communities_overwrites_empty
    (env : UpdateEnv) (st : Stores) (a : String) (aprof : UserProfile) (d : UpdateData)
    (uid n r t : String) (old : UserProfile) (idr : IdentityRecord)
    (hadmin : lookupKey st.firestore a = some aprof)
    (hrole : aprof.role = adminRole)
    (hu : d.uid = some uid) (hn : d.name = some n) (hr : d.role = some r) (ht : d.title = some t)
    (hnu : uid.isEmpty = false) (hnn : n.isEmpty = false)
    (hnr : r.isEmpty = false) (hnt : t.isEmpty = false)
    (hcomm : d.communities = none) (hpw : d.password = none)
    (hprof : lookupKey st.firestore uid = some old)
    (hauth : lookupKey st.auth uid = some idr) :
    updateUser env st (some a) d =
      ({ auth := setKey st.auth uid ⟨idr.email, idr.password, n⟩,
         firestore := setKey st.firestore uid ⟨old.email, n, r, t, []⟩ },
        .ok ⟨true⟩)
    ∧ lookupKey (setKey st.firestore uid ⟨old.email, n, r, t, []⟩) uid
        = some ⟨old.email, n, r, t, []⟩ := by
  have hg := ensureAdmin_ok st a aprof hadmin hrole
  have hf := updateMissingFields_false d uid n r t hu hn hr ht hnu hnn hnr hnt
  refine ⟨?_, lookupKey_setKey_self st.firestore uid ⟨old.email, n, r, t, []⟩⟩
  simp [updateUser, hg, hf, firestoreUpdate, hu, hn, hr, ht, hcomm, hprof,
    authUpdateUser, hauth, hpw, truthyStr]

/-- C6 witness: member `u0` starts with communities `["c1"]`; an update
omitting `communities` stores the empty list. -/
theorem update_omitted_communities_overwrites_empty_witness :
    updateUser ⟨false⟩ exSt (some "a1") ⟨some "u0", some "N", some "R", some "T", none, none⟩ =
      ({ auth := setKey exSt.auth "u0" ⟨"u0@x", "pw0", "N"⟩,
         firestore := setKey exSt.firestore "u0" ⟨"u0@x", "N", "R", "T", []⟩ },
        .ok ⟨true⟩)
    ∧ lookupKey (setKey exSt.firestore "u0" ⟨"u0@x", "N", "R", "T", []⟩) "u0"
        = some ⟨"u0@x", "N", "R", "T", []⟩ :=
  update_omitted_communities_overwrites_empty ⟨false⟩ exSt "a1" exAdmin
    ⟨some "u0", some "N", some "R", some "T", none, none⟩ "u0" "N" "R" "T"
    exMember ⟨"u0@x", "pw0", "U0"⟩
    (by decide) (by decide) (by decide) (by decide) (by decide) (by decide)
    (by decide) (by decide) (by decide) (by decide) (by decide) (by decide)
    (by decide) (by decide)

/-- C7 counterexample: deleting an id the identity provider never held
reports `internal`, not `not-found` as the claim's second disjunct
states (the catch block of `deleteUser` maps every failure to
`internal`); the stores are untouched. -/
theorem delete_never_present_internal_cex :
    deleteUser ⟨false, false⟩ exSt (some "a1") ⟨some "ghost"⟩ =
      (exSt, .error ⟨some "internal", "刪除使用者時發生錯誤。"⟩)
    ∧ errCodeOf (deleteUser ⟨false, false⟩ exSt (some "a1") ⟨some "ghost"⟩).2
      ≠ some "not-found" := by
  decide

/-- C7 (amended): when the identity-provider delete fails — whether the
account id was never present there, or the provider call fails
transiently on a present account — `deleteUser` aborts before the
profile-store delete, leaves both stores exactly as they were (so the
UserProfile is unchanged), and reports `internal` in both cases, never
`not-found`. -/
theorem delete_identity_failure_aborts
    (envA : DeleteEnv) (stA : Stores) (aA : String) (profA : UserProfile) (uidA : String)
    (envB : DeleteEnv) (stB : Stores) (aB : String) (profB : UserProfile) (uidB : String)
    (recB : IdentityRecord)
    (hadminA : lookupKey stA.firestore aA = some profA) (hroleA : profA.role = adminRole)
    (hnuA : uidA.isEmpty = false)
    (habsentA : lookupKey stA.auth uidA = none)
    (hadminB : lookupKey stB.firestore aB = some profB) (hroleB : profB.role = adminRole)
    (hnuB : uidB.isEmpty = false)
    (hpresB : lookupKey stB.auth uidB = some recB)
    (hfB : envB.authDeleteFails = true) :
    deleteUser envA stA (some aA) ⟨some uidA⟩ =
      (stA, .error ⟨some "internal", "刪除使用者時發生錯誤。"⟩)
    ∧ deleteUser envB stB (some aB) ⟨some uidB⟩ =
      (stB, .error ⟨some "internal", "刪除使用者時發生錯誤。"⟩) := by
  have hgA := ensureAdmin_ok stA aA profA hadminA hroleA
  have hgB := ensureAdmin_ok stB aB profB hadminB hroleB
  constructor
  · simp [deleteUser, hgA, truthyStr, hnuA, authDeleteUser, habsentA]
  · simp [deleteUser, hgB, truthyStr, hnuB, authDeleteUser, hpresB, hfB]

/-- C7 (amended) witness: a never-present id (`ghost`) and a transient
provider failure on the present id `u0`, both against the concrete
store. -/
theorem delete_identity_failure_aborts_witness :
    deleteUser ⟨false, false⟩ exSt (some "a1") ⟨some "ghost"⟩ =
      (exSt, .error ⟨some "internal", "刪除使用者時發生錯誤。"⟩)
    ∧ deleteUser ⟨true, false⟩ exSt (some "a1") ⟨some "u0"⟩ =
      (exSt, .error ⟨some "internal", "刪除使用者時發生錯誤。"⟩) :=
  delete_identity_failure_aborts ⟨false, false⟩ exSt "a1" exAdmin "ghost"
    ⟨true, false⟩ exSt "a1" exAdmin "u0" ⟨"u0@x", "pw0", "U0"⟩
    (by decide) (by decide) (by decide) (by decide) (by decide) (by decide)
    (by decide) (by decide) (by decide)

/-- C2: every operation is gated on the admin check before any write.
For the callable operations: a request without a credential (no
`context.auth`, which also covers a credential the transport could not
verify) returns `unauthenticated`; a verified caller whose profile is
absent, or whose role is not the administrator sentinel, gets
`permission-denied`; in each case the returned store state is exactly the
input state.  For the HTTP guard: a header without a Bearer token and a
token that fails verification give `unauthenticated`, a verified caller
without an admin profile gives `permission-denied`, and the three HTTP
endpoints answer a failed verification with status 401 leaving the
stores untouched. -/
theorem admin_gate_rejections
    (envC : CreateEnv) (envU : UpdateEnv) (envD : DeleteEnv) (st : Stores)
    (cd : CreateData) (ud : UpdateData) (dd : DeleteData)
    (u1 u2 : String) (p2 : UserProfile)
    (verify : String → Option String) (hdr0 hdr1 hdr2 : Option String) (tok1 tok2 : String)
    (h1 : lookupKey st.firestore u1 = none)
    (h2 : lookupKey st.firestore u2 = some p2) (h2r : p2.role ≠ adminRole)
    (h0 : parseBearer (hdr0.getD "") = none)
    (hp1 : parseBearer (hdr1.getD "") = some tok1) (hv1 : verify tok1 = none)
    (hp2 : parseBearer (hdr2.getD "") = some tok2) (hv2 : verify tok2 = some u1) :
    createUser envC st none cd = (st, .error unauthCallableError)
    ∧ updateUser envU st none ud = (st, .error unauthCallableError)
    ∧ deleteUser envD st none dd = (st, .error unauthCallableError)
    ∧ createUser envC st (some u1) cd = (st, .error permDeniedError)
    ∧ updateUser envU st (some u1) ud = (st, .error permDeniedError)
    ∧ deleteUser envD st (some u1) dd = (st, .error permDeniedError)
    ∧ createUser envC st (some u2) cd = (st, .error permDeniedError)
    ∧ updateUser envU st (some u2) ud = (st, .error permDeniedError)
    ∧ deleteUser envD st (some u2) dd = (st, .error permDeniedError)
    ∧ ensureAdminFromRequest st verify hdr0 = .error hdrUnauthMissing
    ∧ ensureAdminFromRequest st verify hdr1 = .error hdrUnauthVerify
    ∧ ensureAdminFromRequest st verify hdr2 = .error hdrPermDenied
    ∧ httpCreateUser envC verify st ⟨"POST", hdr1, some cd⟩
      = (st, .errJson 401 (some "unauthenticated") "Token 驗證失敗")
    ∧ httpUpdateUser envU verify st ⟨"POST", hdr1, some ud⟩
      = (st, .errJson 401 (some "unauthenticated") "Token 驗證失敗")
    ∧ httpDeleteUser envD verify st ⟨"POST", hdr1, some dd⟩
      = (st, .errJson 401 (some "unauthenticated") "Token 驗證失敗") := by
  have hperm1 := ensureAdmin_no_profile st u1 h1
  have hperm2 := ensureAdmin_bad_role st u2 p2 h2 h2r
  have hguard1 : ensureAdminFromRequest st verify hdr1 = .error hdrUnauthVerify := by
    simp [ensureAdminFromRequest, hp1, hv1]
  have hsendC : sendErrorR (httpCreateRemap hdrUnauthVerify)
      = .errJson 401 (some "unauthenticated") "Token 驗證失敗" := by decide
  have hsendU : sendErrorR (httpUpdateRemap hdrUnauthVerify)
      = .errJson 401 (some "unauthenticated") "Token 驗證失敗" := by decide
  have hsendD : sendErrorR hdrUnauthVerify
      = .errJson 401 (some "unauthenticated") "Token 驗證失敗" := by decide
  refine ⟨rfl, rfl, rfl, ?_, ?_, ?_, ?_, ?_, ?_, ?_, hguard1, ?_, ?_, ?_, ?_⟩
  · simp [createUser, hperm1]
  · simp [updateUser, hperm1]
  · simp [deleteUser, hperm1]
  · simp [createUser, hperm2]
  · simp [updateUser, hperm2]
  · simp [deleteUser, hperm2]
  · simp [ensureAdminFromRequest, h0]
  · simp [ensureAdminFromRequest, hp2, hv2, h1]
  · simp [httpCreateUser, hguard1, hsendC]
  · simp [httpUpdateUser, hguard1, hsendU]
  · simp [httpDeleteUser, hguard1, hsendD]

/-- C2 witness: the gate theorem applied to the concrete store (admin
`a1`, non-admin member `u0`, unused id `ghost`), with `verify` accepting
only `tok2` and resolving it to the profile-less `ghost`. -/
theorem admin_gate_rejections_witness :
    createUser ⟨"u1", none, false⟩ exSt none exCD = (exSt, .error unauthCallableError)
    ∧ updateUser ⟨false⟩ exSt none exUD = (exSt, .error unauthCallableError)
    ∧ deleteUser ⟨false, false⟩ exSt none ⟨some "u0"⟩ = (exSt, .error unauthCallableError)
    ∧ createUser ⟨"u1", none, false⟩ exSt (some "ghost") exCD = (exSt, .error permDeniedError)
    ∧ updateUser ⟨false⟩ exSt (some "ghost") exUD = (exSt, .error permDeniedError)
    ∧ deleteUser ⟨false, false⟩ exSt (some "ghost") ⟨some "u0"⟩ = (exSt, .error permDeniedError)
    ∧ createUser ⟨"u1", none, false⟩ exSt (some "u0") exCD = (exSt, .error permDeniedError)
    ∧ updateUser ⟨false⟩ exSt (some "u0") exUD = (exSt, .error permDeniedError)
    ∧ deleteUser ⟨false, false⟩ exSt (some "u0") ⟨some "u0"⟩ = (exSt, .error permDeniedError)
    ∧ ensureAdminFromRequest exSt (fun t => if t = "tok2" then some "ghost" else none) none
      = .error hdrUnauthMissing
    ∧ ensureAdminFromRequest exSt (fun t => if t = "tok2" then some "ghost" else none)
        (some "Bearer tok1") = .error hdrUnauthVerify
    ∧ ensureAdminFromRequest exSt (fun t => if t = "tok2" then some "ghost" else none)
        (some "Bearer tok2") = .error hdrPermDenied
    ∧ httpCreateUser ⟨"u1", none, false⟩ (fun t => if t = "tok2" then some "ghost" else none)
        exSt ⟨"POST", some "Bearer tok1", some exCD⟩
      = (exSt, .errJson 401 (some "unauthenticated") "Token 驗證失敗")
    ∧ httpUpdateUser ⟨false⟩ (fun t => if t = "tok2" then some "ghost" else none)
        exSt ⟨"POST", some "Bearer tok1", some exUD⟩
      = (exSt, .errJson 401 (some "unauthenticated") "Token 驗證失敗")
    ∧ httpDeleteUser ⟨false, false⟩ (fun t => if t = "tok2" then some "ghost" else none)
        exSt ⟨"POST", some "Bearer tok1", some ⟨some "u0"⟩⟩
      = (exSt, .errJson 401 (some "unauthenticated") "Token 驗證失敗") :=
  admin_gate_rejections ⟨"u1", none, false⟩ ⟨false⟩ ⟨false, false⟩ exSt
    exCD exUD ⟨some "u0"⟩ "ghost" "u0" exMember
    (fun t => if t = "tok2" then some "ghost" else none)
    none (some "Bearer tok1") (some "Bearer tok2") "tok1" "tok2"
    (by decide) (by decide) (by decide) (by decide) (by decide) (by decide)
    (by decide) (by decide)

end Patrol
